import Mathlib

/-!
Verification development for the Odoo JSON-RPC adapter
(`src/nodes/Odoo/GenericFunctions.ts`).

The module is translated into a shallow embedding: decoded JSON values are
modelled by `JValue` (with an explicit constructor for JavaScript
`undefined`), thrown errors by `Thrown`, the injected HTTP capability by a
`Transport` oracle, and every operation function returns, next to its
result, the number of transport invocations it performed.
-/

/-- Decoded JSON values as JavaScript sees them, with `undefined` for
JavaScript `undefined`. -/
inductive JValue where
  | undefined
  | null
  | bool (b : Bool)
  | num (n : Int)
  | str (s : String)
  | arr (elems : List JValue)
  | obj (fields : List (String × JValue))

/-- JavaScript truthiness of a value. -/
def JValue.truthy : JValue → Bool
  | .undefined => false
  | .null => false
  | .bool b => b
  | .num n => n != 0
  | .str s => !s.isEmpty
  | .arr _ => true
  | .obj _ => true

/-- First-match lookup in an object's field list; a missing key reads as
`undefined`. Objects decoded from JSON have unique keys. -/
def lookupProp : List (String × JValue) → String → JValue
  | [], _ => .undefined
  | (k, v) :: rest, key => if k == key then v else lookupProp rest key

/-- JavaScript property access `v.key`; the error case models the
TypeError thrown when reading a property of `null` or `undefined`. -/
def JValue.getProp : JValue → String → Except Unit JValue
  | .undefined, _ => .error ()
  | .null, _ => .error ()
  | .obj fs, key => .ok (lookupProp fs key)
  | .arr xs, key => .ok (if key == "length" then .num xs.length else .undefined)
  | .str s, key => .ok (if key == "length" then .num s.length else .undefined)
  | _, _ => .ok .undefined

/-- Errors thrown by the translated code. `raw` is an arbitrary thrown
value, such as a network failure raised by the HTTP helper; `nodeApi`
models `NodeApiError` built from a JSON payload, with its optional
message option; `nodeApiWrap` models `NodeApiError` wrapping a previously
thrown error; `typeError` models a JavaScript TypeError. -/
inductive Thrown where
  | raw (v : JValue)
  | nodeApi (data : JValue) (message : Option JValue)
  | nodeApiWrap (cause : Thrown)
  | typeError

/-- The JSON-RPC envelope `service`/`method`/`args`/`id` assembled by every
operation function. -/
structure RpcBody where
  service : String
  method : String
  args : List JValue
  id : Int

/-- The injected HTTP capability: posts one envelope and either returns the
decoded JSON response or throws. -/
abbrev Transport := RpcBody → Except JValue JValue

/-- The test of the regular expression `^\d+$` (one or more ASCII
digits). -/
def digitsOnly (s : String) : Bool :=
  !s.isEmpty && s.toList.all Char.isDigit

/-- Decimal accumulation over a digit character list. -/
def digitsToNat : List Char → Nat → Nat
  | [], acc => acc
  | c :: rest, acc => digitsToNat rest (acc * 10 + (c.toNat - '0'.toNat))

/-- `parseInt(s, 10)` restricted to the digit strings accepted by
`digitsOnly` (on those it agrees with the decimal value). -/
def jsParseIntDigits (s : String) : Nat :=
  digitsToNat s.toList 0

/-- The shared numeric-ID validation of get, update, delete and workflow:
the string must match `^\d+$` and `parseInt` of it must be nonzero. -/
def validItemID (s : String) : Bool :=
  digitsOnly s && jsParseIntDigits s != 0

/-- The logical CRUD operations of the node. -/
inductive OdooCRUD where
  | create
  | update
  | delete
  | get
  | getAll

/-- Static table from logical operation to remote method name. -/
def mapOperationToJSONRPC : OdooCRUD → String
  | .create => "create"
  | .get => "read"
  | .getAll => "search_read"
  | .update => "write"
  | .delete => "unlink"

/-- Static resource alias table. -/
def mapOdooResources (resource : String) : Option String :=
  if resource == "contact" then some "res.partner"
  else if resource == "opportunity" then some "crm.lead"
  else if resource == "note" then some "note.note"
  else none

/-- The idiom `mapOdooResources[resource] || resource`. -/
def resolveResource (resource : String) : String :=
  (mapOdooResources resource).getD resource

/-- Static table from logical filter operator to remote operator token;
`none` models the `undefined` produced by a lookup miss. -/
def mapFilterOperationToJSONRPC (op : String) : Option String :=
  if op == "equal" then some "="
  else if op == "notEqual" then some "!="
  else if op == "greaterThen" then some ">"
  else if op == "lesserThen" then some "<"
  else if op == "greaterOrEqual" then some ">="
  else if op == "lesserOrEqual" then some "<="
  else if op == "like" then some "like"
  else if op == "ilike" then some "ilike"
  else if op == "in" then some "in"
  else if op == "notIn" then some "not in"
  else if op == "childOf" then some "child_of"
  else none

/-- One entry of a filter specification. The n8n UI supplies `operator` as
a string; it is typed `JValue` because the source overwrites it with the
translated token, which is `undefined` on a lookup miss. -/
structure FilterItem where
  fieldName : String
  operator : JValue
  value : JValue

/-- The assignment `item.operator = mapFilterOperationToJSONRPC[operator]`
performed by `processFilters` on each entry of its input. -/
def translateFilterItem (item : FilterItem) : FilterItem :=
  { item with
    operator :=
      match item.operator with
      | .str op =>
        match mapFilterOperationToJSONRPC op with
        | some tok => .str tok
        | none => .undefined
      | _ => .undefined }

/-- `Object.values(item)` for a filter entry, in insertion order of the
interface literal. -/
def filterItemValues (item : FilterItem) : List JValue :=
  [.str item.fieldName, item.operator, item.value]

/-- `processFilters`. The first component is the returned value (`none`
models the `undefined` returned when the `filter` list is absent); the
second component is the state of the input list after the call, since the
source writes the translated token back into each entry. -/
def processFilters (value : Option (List FilterItem)) :
    Option (List (List JValue)) × Option (List FilterItem) :=
  match value with
  | none => (none, none)
  | some items =>
    let post := items.map translateFilterItem
    (some (post.map filterItemValues), some post)

/-- One entry of a field-update specification. -/
structure NVField where
  fieldName : String
  fieldValue : String
deriving DecidableEq

/-- `Object.assign(acc, singleKeyObject)` on an object model with unique
keys: updating an existing key keeps its position, a new key is
appended. -/
def objAssign : List (String × String) → String → String →
    List (String × String)
  | [], key, val => [(key, val)]
  | (k, v) :: rest, key, val =>
    if k == key then (key, val) :: rest
    else (k, v) :: objAssign rest key val

/-- The `reduce` of `processNameValueFields` starting from a fresh empty
object. -/
def reduceFields (fields : List NVField) : List (String × String) :=
  fields.foldl (fun acc r => objAssign acc r.fieldName r.fieldValue) []

/-- `processNameValueFields`. The outer `Option` models the input object
being absent, the inner one its `fields` list being absent; a `none`
result models the `undefined` the optional chaining produces in either
case. -/
def processNameValueFields :
    Option (Option (List NVField)) → Option (List (String × String))
  | none => none
  | some none => none
  | some (some fields) => some (reduceFields fields)

/-- First-match lookup in a JavaScript-object model built from string
values. -/
def lookupStr : List (String × String) → String → Option String
  | [], _ => none
  | (k, v) :: rest, key => if k == key then some v else lookupStr rest key

/-- Modelled platform builtin: the characters after the first `://` of a
URL string, or `none` when there is no such separator, in which case the
`URL` constructor of the platform throws on the inputs this module
receives. -/
def afterScheme : List Char → Option (List Char)
  | [] => none
  | ':' :: '/' :: '/' :: rest => some rest
  | _ :: rest => afterScheme rest

/-- Modelled platform builtin: `new URL(s).hostname` for the http(s)- and
file-style URL strings this module receives: the authority runs to the
first `/`, `?` or `#`, userinfo before `@` and a port after `:` are
stripped. -/
def urlHostname (s : String) : Option String :=
  match afterScheme s.toList with
  | none => none
  | some rest =>
    let authority := rest.takeWhile (fun c => c != '/' && c != '?' && c != '#')
    let afterUser := (authority.reverse.takeWhile (fun c => c != '@')).reverse
    some (afterUser.takeWhile (fun c => c != ':')).asString

/-- `new URL(url)` after JavaScript string coercion of the argument: a
non-string credential value coerces to a string (for example
`"undefined"`) that does not parse as a URL. -/
def urlHostnameJ : JValue → Option String
  | .str s => urlHostname s
  | _ => none

/-- `hostname.split(".")[0]`. -/
def firstDotLabel (h : String) : String :=
  (h.toList.takeWhile (fun c => c != '.')).asString

/-- `odooGetDBName`: the explicit name wins when truthy; otherwise the
first dot-delimited label of the URL hostname, the empty string when the
hostname is empty, and the error case models the URL constructor
throwing. -/
def odooGetDBName (databaseName url : JValue) : Except Unit JValue :=
  if databaseName.truthy then .ok databaseName
  else
    match urlHostnameJ url with
    | none => .error ()
    | some hostname =>
      if hostname.isEmpty then .ok (.str "")
      else .ok (.str (firstDotLabel hostname))

/-- The try-block of `odooJSONRPCRequest`: perform the request, throw a
`NodeApiError` carrying `response.error.data` and its `message` when the
`error` field is truthy, otherwise return `response.result`. -/
def rpcTry (transport : Transport) (body : RpcBody) : Except Thrown JValue :=
  match transport body with
  | .error e => .error (.raw e)
  | .ok response =>
    match response.getProp "error" with
    | .error _ => .error .typeError
    | .ok errv =>
      if errv.truthy then
        match errv.getProp "data" with
        | .error _ => .error .typeError
        | .ok dataV =>
          match dataV.getProp "message" with
          | .error _ => .error .typeError
          | .ok msgV => .error (.nodeApi dataV (some msgV))
      else
        match response.getProp "result" with
        | .error _ => .error .typeError
        | .ok resV => .ok resV

/-- `odooJSONRPCRequest`: the catch-all around `rpcTry` rethrows every
failure wrapped in a fresh `NodeApiError`. -/
def odooJSONRPCRequest (transport : Transport) (body : RpcBody) :
    Except Thrown JValue :=
  match rpcTry transport body with
  | .ok v => .ok v
  | .error e => .error (.nodeApiWrap e)

/-- The payload of the validation `NodeApiError` for an invalid item ID. -/
def invalidIDError (itemsID : String) : Thrown :=
  .nodeApi (.obj [("status", .str "Error"),
    ("message", .str ("Please specify a valid ID: " ++ itemsID))]) none

/-- The payload of the validation `NodeApiError` for an empty update
set. -/
def noFieldsError : Thrown :=
  .nodeApi (.obj [("status", .str "Error"),
    ("message", .str "Please specify at least one field to update")]) none

/-- The envelope assembled by `odooCreate` (`newItem || {}` defaults a
falsy item to an empty object). -/
def odooCreateBody (db : String) (userID : Int) (password resource : String)
    (operation : OdooCRUD) (newItem : JValue) (rid : Int) : RpcBody :=
  { service := "object", method := "execute",
    args := [.str db, .num userID, .str password,
      .str (resolveResource resource), .str (mapOperationToJSONRPC operation),
      if newItem.truthy then newItem else .obj []],
    id := rid }

/-- `odooCreate`: one remote call, result shaped as an object with key
`id`. -/
def odooCreate (transport : Transport) (db : String) (userID : Int)
    (password resource : String) (operation : OdooCRUD) (newItem : JValue)
    (rid : Int) : Except Thrown JValue × Nat :=
  match odooJSONRPCRequest transport
      (odooCreateBody db userID password resource operation newItem rid) with
  | .ok v => (.ok (.obj [("id", v)]), 1)
  | .error e => (.error (.nodeApiWrap e), 1)

/-- The envelope assembled by `odooGet`. -/
def odooGetBody (db : String) (userID : Int) (password resource : String)
    (operation : OdooCRUD) (itemsID : String)
    (fieldsToReturn : Option (List JValue)) (rid : Int) : RpcBody :=
  { service := "object", method := "execute",
    args := [.str db, .num userID, .str password,
      .str (resolveResource resource), .str (mapOperationToJSONRPC operation),
      .arr [.num (jsParseIntDigits itemsID)],
      .arr (fieldsToReturn.getD [])],
    id := rid }

/-- `odooGet`: the ID validation throws inside the try-block, so the
validation error comes out wrapped; a valid ID leads to exactly one
transport call. -/
def odooGet (transport : Transport) (db : String) (userID : Int)
    (password resource : String) (operation : OdooCRUD) (itemsID : String)
    (fieldsToReturn : Option (List JValue)) (rid : Int) :
    Except Thrown JValue × Nat :=
  if validItemID itemsID then
    match odooJSONRPCRequest transport
        (odooGetBody db userID password resource operation itemsID
          fieldsToReturn rid) with
    | .ok v => (.ok v, 1)
    | .error e => (.error (.nodeApiWrap e), 1)
  else (.error (.nodeApiWrap (invalidIDError itemsID)), 0)

/-- `(filters && processFilters(filters)) || []`: absent filters, and an
absent inner `filter` list, both default to the empty array. -/
def encodedFilters (filters : Option (Option (List FilterItem))) :
    List JValue :=
  match filters with
  | none => []
  | some fl =>
    match (processFilters fl).1 with
    | none => []
    | some triples => triples.map JValue.arr

/-- The envelope assembled by `odooGetAll`. -/
def odooGetAllBody (db : String) (userID : Int) (password resource : String)
    (operation : OdooCRUD) (filters : Option (Option (List FilterItem)))
    (fieldsToReturn : Option (List JValue)) (offset limit : Int)
    (rid : Int) : RpcBody :=
  { service := "object", method := "execute",
    args := [.str db, .num userID, .str password,
      .str (resolveResource resource), .str (mapOperationToJSONRPC operation),
      .arr (encodedFilters filters),
      .arr (fieldsToReturn.getD []),
      .num offset, .num limit],
    id := rid }

/-- `odooGetAll`: no validation, one remote call. -/
def odooGetAll (transport : Transport) (db : String) (userID : Int)
    (password resource : String) (operation : OdooCRUD)
    (filters : Option (Option (List FilterItem)))
    (fieldsToReturn : Option (List JValue)) (offset limit : Int)
    (rid : Int) : Except Thrown JValue × Nat :=
  match odooJSONRPCRequest transport
      (odooGetAllBody db userID password resource operation filters
        fieldsToReturn offset limit rid) with
  | .ok v => (.ok v, 1)
  | .error e => (.error (.nodeApiWrap e), 1)

/-- The envelope assembled by `odooUpdate`. -/
def odooUpdateBody (db : String) (userID : Int) (password resource : String)
    (operation : OdooCRUD) (itemsID : String)
    (fieldsToUpdate : List (String × JValue)) (rid : Int) : RpcBody :=
  { service := "object", method := "execute",
    args := [.str db, .num userID, .str password,
      .str (resolveResource resource), .str (mapOperationToJSONRPC operation),
      .arr [.num (jsParseIntDigits itemsID)],
      .obj fieldsToUpdate],
    id := rid }

/-- `odooUpdate`: the empty-fields check runs before the ID check, both
inside the try-block; success returns an object carrying the original
`itemsID` string. -/
def odooUpdate (transport : Transport) (db : String) (userID : Int)
    (password resource : String) (operation : OdooCRUD) (itemsID : String)
    (fieldsToUpdate : List (String × JValue)) (rid : Int) :
    Except Thrown JValue × Nat :=
  if fieldsToUpdate.isEmpty then (.error (.nodeApiWrap noFieldsError), 0)
  else if validItemID itemsID then
    match odooJSONRPCRequest transport
        (odooUpdateBody db userID password resource operation itemsID
          fieldsToUpdate rid) with
    | .ok _ => (.ok (.obj [("id", .str itemsID)]), 1)
    | .error e => (.error (.nodeApiWrap e), 1)
  else (.error (.nodeApiWrap (invalidIDError itemsID)), 0)

/-- The envelope assembled by `odooDelete`. -/
def odooDeleteBody (db : String) (userID : Int) (password resource : String)
    (operation : OdooCRUD) (itemsID : String) (rid : Int) : RpcBody :=
  { service := "object", method := "execute",
    args := [.str db, .num userID, .str password,
      .str (resolveResource resource), .str (mapOperationToJSONRPC operation),
      .arr [.num (jsParseIntDigits itemsID)]],
    id := rid }

/-- `odooDelete`: uniquely, the ID validation sits before the try-block,
so its validation error is thrown unwrapped. -/
def odooDelete (transport : Transport) (db : String) (userID : Int)
    (password resource : String) (operation : OdooCRUD) (itemsID : String)
    (rid : Int) : Except Thrown JValue × Nat :=
  if validItemID itemsID then
    match odooJSONRPCRequest transport
        (odooDeleteBody db userID password resource operation itemsID rid) with
    | .ok _ => (.ok (.obj [("success", .bool true)]), 1)
    | .error e => (.error (.nodeApiWrap e), 1)
  else (.error (invalidIDError itemsID), 0)

/-- The envelope assembled by `odooWorkflow`: the resource string is placed
verbatim in the model position, with no alias-table lookup. -/
def odooWorkflowBody (db : String) (userID : Int)
    (password resource customOperation : String) (itemsID : String)
    (rid : Int) : RpcBody :=
  { service := "object", method := "execute",
    args := [.str db, .num userID, .str password,
      .str resource, .str customOperation,
      .arr [.num (jsParseIntDigits itemsID)]],
    id := rid }

/-- `odooWorkflow`: ID validation inside the try-block, then one remote
call of the caller-supplied method. -/
def odooWorkflow (transport : Transport) (db : String) (userID : Int)
    (password resource customOperation : String) (itemsID : String)
    (rid : Int) : Except Thrown JValue × Nat :=
  if validItemID itemsID then
    match odooJSONRPCRequest transport
        (odooWorkflowBody db userID password resource customOperation
          itemsID rid) with
    | .ok v => (.ok v, 1)
    | .error e => (.error (.nodeApiWrap e), 1)
  else (.error (.nodeApiWrap (invalidIDError itemsID)), 0)

/-- The envelope assembled by `odooGetModelFields`. -/
def odooGetModelFieldsBody (db : String) (userID : Int)
    (password resource : String) (rid : Int) : RpcBody :=
  { service := "object", method := "execute",
    args := [.str db, .num userID, .str password,
      .str (resolveResource resource), .str "fields_get", .arr [],
      .arr [.str "string", .str "type", .str "help", .str "required",
        .str "name"]],
    id := rid }

/-- The login envelope of `odooGetUserID`. Identity values are kept as
`JValue` because the addon probe feeds it raw credential properties. -/
def loginBody (db username password : JValue) (rid : Int) : RpcBody :=
  { service := "common", method := "login",
    args := [db, username, password],
    id := rid }

/-- `odooGetUserID`: the login result is returned verbatim, with no
validation; the catch-all rewraps a transport failure. -/
def odooGetUserID (transport : Transport) (db username password : JValue)
    (rid : Int) : Except Thrown JValue :=
  match odooJSONRPCRequest transport (loginBody db username password rid) with
  | .ok v => .ok v
  | .error e => .error (.nodeApiWrap e)

/-- `credentials?.key`: optional chaining never throws; non-object
credential values read as `undefined`. -/
def credProp (credentials : JValue) (key : String) : JValue :=
  match credentials with
  | .obj fs => lookupProp fs key
  | _ => .undefined

/-- The probe envelope of `odooIsAddonInstalled`. -/
def probeBody (db userID password : JValue) (rid : Int) : RpcBody :=
  { service := "object", method := "execute",
    args := [db, userID, password, .str "ir.model", .str "search_read",
      .arr [.arr [.str "model", .str "=", .str "base"]], .arr []],
    id := rid }

/-- `result?.length` (optional chaining, then the `length` property). -/
def jsLengthMaybe : JValue → JValue
  | .undefined => .undefined
  | .null => .undefined
  | .arr xs => .num xs.length
  | .str s => .num s.length
  | .obj fs => lookupProp fs "length"
  | _ => .undefined

/-- Strict equality `=== 1` against a number. -/
def jsStrictEqOne : JValue → Bool
  | .num n => n == 1
  | _ => false

/-- `result[0]`. -/
def jsIndex0 : JValue → JValue
  | .arr xs => xs.headD .undefined
  | .obj fs => lookupProp fs "0"
  | .str s => if s.isEmpty then .undefined else .str (s.take 1)
  | _ => .undefined

/-- `v.hasOwnProperty(key)`; throws a TypeError on `null` and
`undefined`. -/
def jsHasOwn (v : JValue) (key : String) : Except Unit Bool :=
  match v with
  | .undefined => .error ()
  | .null => .error ()
  | .obj fs => .ok (fs.any (fun p => p.1 == key))
  | .arr xs => .ok (key == "length" ||
      (digitsOnly key && decide (digitsToNat key.toList 0 < xs.length)))
  | .str s => .ok (key == "length" ||
      (digitsOnly key && decide (digitsToNat key.toList 0 < s.length)))
  | _ => .ok false

/-- The shape test of the addon probe:
`result?.length === 1 && result[0].hasOwnProperty("methods")`. -/
def addonProbeCheck (result : JValue) : Except Unit Bool :=
  if jsStrictEqOne (jsLengthMaybe result) then jsHasOwn (jsIndex0 result) "methods"
  else .ok false

/-- The probe shape test under the surrounding catch-all: a thrown
TypeError becomes `false`. -/
def probeOutcome (result : JValue) : Bool :=
  match addonProbeCheck result with
  | .ok b => b
  | .error _ => false

/-- The refinement target, following the words of the specification: the
probe succeeds exactly when the result is a list of exactly one record
that has a `methods` property. -/
def specProbeSuccess (result : JValue) : Bool :=
  match result with
  | .arr [.obj fs] => fs.any (fun p => p.1 == "methods")
  | _ => false

/-- The collaborators of the addon probe: the credential accessor (which
may throw) and the HTTP capability. -/
structure ProbeEnv where
  getCredentials : Except JValue JValue
  transport : Transport

/-- The try-block of `odooIsAddonInstalled`: credentials, database-name
resolution, login, then the probe request; the caller applies
`addonProbeCheck` to the value returned here. -/
def addonProbeTry (env : ProbeEnv) (rid1 rid2 : Int) : Except Thrown JValue :=
  match env.getCredentials with
  | .error e => .error (.raw e)
  | .ok credentials =>
    match odooGetDBName (credProp credentials "db")
        (credProp credentials "url") with
    | .error _ => .error .typeError
    | .ok db =>
      match odooGetUserID env.transport db (credProp credentials "username")
          (credProp credentials "password") rid1 with
      | .error e => .error e
      | .ok userID =>
        odooJSONRPCRequest env.transport
          (probeBody db userID (credProp credentials "password") rid2)

/-- `odooIsAddonInstalled`: every failure anywhere in the chain is caught
and becomes `false`. -/
def odooIsAddonInstalled (env : ProbeEnv) (rid1 rid2 : Int) : Bool :=
  match addonProbeTry env rid1 rid2 with
  | .error _ => false
  | .ok result => probeOutcome result

/-- A transport whose every response carries result `null`. -/
def tNull : Transport := fun _ => .ok (.obj [("result", .null)])

/-- A transport whose every response carries result `false`, the remote
signal for rejected credentials. -/
def tFalse : Transport := fun _ => .ok (.obj [("result", .bool false)])

/-- A transport whose every response is an error envelope with message
`boom`. -/
def tBoom : Transport := fun _ =>
  .ok (.obj [("error", .obj [("data", .obj [("message", .str "boom")])])])

/-- A concrete envelope for exercising the transport function. -/
def bodyEx : RpcBody :=
  { service := "common", method := "version", args := [], id := 0 }

/-- Concrete well-formed credentials. -/
def credsOK : JValue :=
  .obj [("url", .str "https://acme.example.com"), ("db", .str "mydb"),
    ("username", .str "user"), ("password", .str "pw")]

/-- A probe result of the documented shape: one record with a `methods`
property. -/
def probeResultOK : JValue := .arr [.obj [("methods", .str "[]")]]

/-- A probe result that is not a list yet passes the source's shape test:
an object with a `length` property of `1` and an element at index `0`
owning `methods`. -/
def weirdResult : JValue :=
  .obj [("length", .num 1), ("0", .obj [("methods", .str "[]")])]

/-- A transport that accepts the login and answers the probe query with
the documented one-record list. -/
def probeTransportOK : Transport := fun body =>
  if body.service == "common" then .ok (.obj [("result", .num 7)])
  else .ok (.obj [("result", probeResultOK)])

/-- A transport that accepts the login and answers the probe query with
`weirdResult`. -/
def probeTransportWeird : Transport := fun body =>
  if body.service == "common" then .ok (.obj [("result", .num 7)])
  else .ok (.obj [("result", weirdResult)])

/-- A probe environment over `probeTransportOK`. -/
def envOK : ProbeEnv := ⟨.ok credsOK, probeTransportOK⟩

/-- A probe environment over `probeTransportWeird`. -/
def envWeird : ProbeEnv := ⟨.ok credsOK, probeTransportWeird⟩

theorem lookupStr_objAssign_self (acc : List (String × String))
    (key val : String) :
    lookupStr (objAssign acc key val) key = some val := by
  induction acc with
  | nil => simp [objAssign, lookupStr]
  | cons p rest ih =>
    obtain ⟨k, v⟩ := p
    cases h : k == key with
    | true => simp [objAssign, lookupStr, h]
    | false => simp [objAssign, lookupStr, h, ih]

theorem lookupStr_objAssign_other (acc : List (String × String))
    (key val k : String) (h : k ≠ key) :
    lookupStr (objAssign acc key val) k = lookupStr acc k := by
  have hkk : (key == k) = false := by
    simpa using Ne.symm h
  induction acc with
  | nil => simp [objAssign, lookupStr, hkk]
  | cons p rest ih =>
    obtain ⟨k1, v1⟩ := p
    cases h1 : k1 == key with
    | true =>
      have hk1 : k1 = key := by simpa using h1
      simp [objAssign, lookupStr, h1, hkk, hk1]
    | false =>
      simp [objAssign, lookupStr, h1, ih]

theorem lookupStr_reduce_noKey (fields : List NVField)
    (acc : List (String × String)) (k : String)
    (h : ∀ x ∈ fields, x.fieldName ≠ k) :
    lookupStr
      (fields.foldl (fun a r => objAssign a r.fieldName r.fieldValue) acc) k =
      lookupStr acc k := by
  induction fields generalizing acc with
  | nil => rfl
  | cons f rest ih =>
    simp only [List.foldl_cons]
    rw [ih _ (fun x hx => h x (List.mem_cons_of_mem f hx))]
    exact lookupStr_objAssign_other acc f.fieldName f.fieldValue k
      (Ne.symm (h f (List.mem_cons_self f rest)))

theorem lookupStr_reduce_lastWins (pre : List NVField) (r : NVField)
    (post : List NVField) (k : String)
    (hpost : ∀ x ∈ post, x.fieldName ≠ k) (hr : r.fieldName = k) :
    lookupStr (reduceFields (pre ++ r :: post)) k = some r.fieldValue := by
  unfold reduceFields
  rw [List.foldl_append]
  simp only [List.foldl_cons]
  rw [lookupStr_reduce_noKey post _ k hpost, hr]
  exact lookupStr_objAssign_self _ k r.fieldValue

/-- C2: `odooJSONRPCRequest` fails with a `NodeApiError` carrying
`response.error.data` and its `message` whenever the response carries a
truthy `error` field, returns `response.result` otherwise, wraps a
transport throw, and every failure it raises is the single normalized
wrapped `NodeApiError` type. -/
theorem claim_C2 (t : Transport) (b : RpcBody) :
    (∀ resp errv dataV msgV, t b = .ok resp →
      resp.getProp "error" = .ok errv → errv.truthy = true →
      errv.getProp "data" = .ok dataV → dataV.getProp "message" = .ok msgV →
      odooJSONRPCRequest t b =
        .error (.nodeApiWrap (.nodeApi dataV (some msgV)))) ∧
    (∀ resp errv resV, t b = .ok resp → resp.getProp "error" = .ok errv →
      errv.truthy = false → resp.getProp "result" = .ok resV →
      odooJSONRPCRequest t b = .ok resV) ∧
    (∀ e, t b = .error e →
      odooJSONRPCRequest t b = .error (.nodeApiWrap (.raw e))) ∧
    (∀ e, odooJSONRPCRequest t b = .error e → ∃ c, e = .nodeApiWrap c) := by
  refine ⟨?_, ?_, ?_, ?_⟩
  · intro resp errv dataV msgV h1 h2 h3 h4 h5
    simp [odooJSONRPCRequest, rpcTry, h1, h2, h3, h4, h5]
  · intro resp errv resV h1 h2 h3 h4
    simp [odooJSONRPCRequest, rpcTry, h1, h2, h3, h4]
  · intro e h1
    simp [odooJSONRPCRequest, rpcTry, h1]
  · intro e h1
    unfold odooJSONRPCRequest at h1
    cases hr : rpcTry t b with
    | ok v => rw [hr] at h1; exact absurd h1 (by simp)
    | error c => rw [hr] at h1; simp at h1; exact ⟨c, h1.symm⟩

/-- C2 witness: a transport answering with an error envelope whose message
is `boom` makes the transport function raise the wrapped normalized error
carrying that data and message. -/
theorem claim_C2_witness :
    odooJSONRPCRequest tBoom bodyEx =
      .error (.nodeApiWrap (.nodeApi (.obj [("message", .str "boom")])
        (some (.str "boom")))) :=
  (claim_C2 tBoom bodyEx).1
    (.obj [("error", .obj [("data", .obj [("message", .str "boom")])])])
    (.obj [("data", .obj [("message", .str "boom")])])
    (.obj [("message", .str "boom")]) (.str "boom") rfl rfl rfl rfl rfl

/-- C3: the filter encoder maps every entry to the positional triple of
field name, translated operator token and value, keeps the list order,
yields the absent marker for an absent filter list, and the operator table
carries exactly the documented tokens. -/
theorem claim_C3 :
    (∀ (name op tok : String) (v : JValue),
      mapFilterOperationToJSONRPC op = some tok →
      (processFilters (some [⟨name, .str op, v⟩])).1 =
        some [[.str name, .str tok, v]]) ∧
    (∀ items, (processFilters (some items)).1 =
      some (items.map (fun it => filterItemValues (translateFilterItem it)))) ∧
    (processFilters none).1 = none ∧
    mapFilterOperationToJSONRPC "equal" = some "=" ∧
    mapFilterOperationToJSONRPC "notEqual" = some "!=" ∧
    mapFilterOperationToJSONRPC "greaterThen" = some ">" ∧
    mapFilterOperationToJSONRPC "lesserThen" = some "<" ∧
    mapFilterOperationToJSONRPC "greaterOrEqual" = some ">=" ∧
    mapFilterOperationToJSONRPC "lesserOrEqual" = some "<=" ∧
    mapFilterOperationToJSONRPC "like" = some "like" ∧
    mapFilterOperationToJSONRPC "ilike" = some "ilike" ∧
    mapFilterOperationToJSONRPC "in" = some "in" ∧
    mapFilterOperationToJSONRPC "notIn" = some "not in" ∧
    mapFilterOperationToJSONRPC "childOf" = some "child_of" := by
  refine ⟨?_, ?_, rfl, rfl, rfl, rfl, rfl, rfl, rfl, rfl, rfl, rfl, rfl, rfl⟩
  · intro name op tok v h
    simp [processFilters, translateFilterItem, filterItemValues, h]
  · intro items
    simp [processFilters, List.map_map, Function.comp]

/-- C3 witness: the `equal` operator encodes as the `=` token in the
middle position. -/
theorem claim_C3_witness :
    (processFilters (some [⟨"x", .str "equal", .num 1⟩])).1 =
      some [[.str "x", .str "=", .num 1]] :=
  claim_C3.1 "x" "equal" "=" (.num 1) rfl

/-- C5 (amended): every operation body except the workflow one places the
alias-table resolution of the resource in the model-identifier position
(argument index 3); the workflow body places the caller-supplied resource
string there verbatim; the table holds exactly the three documented
aliases and unknown aliases pass through unchanged. -/
theorem claim_C5 (db : String) (uid : Int) (pw res : String) (op : OdooCRUD)
    (item : JValue) (itemsID : String) (ftr : Option (List JValue))
    (filters : Option (Option (List FilterItem))) (offset limit : Int)
    (fields : List (String × JValue)) (cop : String) (rid : Int) :
    ((odooCreateBody db uid pw res op item rid).args.get? 3 =
        some (.str (resolveResource res)) ∧
      (odooGetBody db uid pw res op itemsID ftr rid).args.get? 3 =
        some (.str (resolveResource res)) ∧
      (odooGetAllBody db uid pw res op filters ftr offset limit rid).args.get? 3 =
        some (.str (resolveResource res)) ∧
      (odooUpdateBody db uid pw res op itemsID fields rid).args.get? 3 =
        some (.str (resolveResource res)) ∧
      (odooDeleteBody db uid pw res op itemsID rid).args.get? 3 =
        some (.str (resolveResource res)) ∧
      (odooGetModelFieldsBody db uid pw res rid).args.get? 3 =
        some (.str (resolveResource res)) ∧
      (odooWorkflowBody db uid pw res cop itemsID rid).args.get? 3 =
        some (.str res)) ∧
    resolveResource "contact" = "res.partner" ∧
    resolveResource "opportunity" = "crm.lead" ∧
    resolveResource "note" = "note.note" ∧
    (∀ r, mapOdooResources r = none → resolveResource r = r) ∧
    resolveResource "custom.model" = "custom.model" := by
  refine ⟨⟨rfl, rfl, rfl, rfl, rfl, rfl, rfl⟩, rfl, rfl, rfl, ?_, rfl⟩
  intro r h
  simp [resolveResource, h]

/-- C5 counterexample: the workflow operation takes a resource argument
but does not resolve it through the alias table — with resource `contact`
the model position carries `contact`, not `res.partner`. -/
theorem claim_C5_counterexample :
    mapOdooResources "contact" = some "res.partner" ∧
    (odooWorkflowBody "db" 1 "pw" "contact" "action_confirm" "5" 0).args.get? 3 =
      some (.str "contact") ∧
    "contact" ≠ "res.partner" := ⟨rfl, rfl, by decide⟩

/-- C5 witness: the unlisted alias passes through unchanged. -/
theorem claim_C5_witness :
    mapOdooResources "custom.model" = none ∧
    resolveResource "custom.model" = "custom.model" :=
  ⟨rfl, (claim_C5 "db" 1 "pw" "r" .create .null "1" none none 0 0 [] "c" 0).2.2.2.2.1
    "custom.model" rfl⟩

/-- C6: a truthy explicit database name is returned unchanged whatever the
URL; otherwise the name is the first dot-delimited label of the URL
hostname, with the empty string for an empty hostname. -/
theorem claim_C6 :
    (∀ (databaseName url : JValue), databaseName.truthy = true →
      odooGetDBName databaseName url = .ok databaseName) ∧
    odooGetDBName (.str "") (.str "https://acme.example.com") =
      .ok (.str "acme") ∧
    odooGetDBName .undefined (.str "https://acme.example.com") =
      .ok (.str "acme") ∧
    (∀ s, urlHostnameJ (.str s) = some "" →
      odooGetDBName .undefined (.str s) = .ok (.str "")) ∧
    odooGetDBName .undefined (.str "file:///x") = .ok (.str "") ∧
    (∀ (databaseName : JValue) (s hostname : String),
      databaseName.truthy = false → urlHostnameJ (.str s) = some hostname →
      hostname.isEmpty = false →
      odooGetDBName databaseName (.str s) =
        .ok (.str (firstDotLabel hostname))) := by
  refine ⟨?_, rfl, rfl, ?_, rfl, ?_⟩
  · intro dbn url h
    simp [odooGetDBName, h]
  · intro s h
    simp [odooGetDBName, JValue.truthy, h]
    intro hc
    exact absurd hc (by decide)
  · intro dbn s hostname h1 h2 h3
    simp [odooGetDBName, h1, h2, h3]

/-- C6 witness: an explicit name wins over an unparseable URL, and an
implicit name is the first hostname label with the port stripped. -/
theorem claim_C6_witness :
    odooGetDBName (.str "explicit") (.str "not a url") =
      .ok (.str "explicit") ∧
    odooGetDBName .undefined (.str "https://acme.example.com:8069/web") =
      .ok (.str "acme") :=
  ⟨claim_C6.1 (.str "explicit") (.str "not a url") rfl,
   claim_C6.2.2.2.2.2 .undefined "https://acme.example.com:8069/web"
     "acme.example.com" rfl rfl rfl⟩

/-- C8 counterexample: an absent input specification yields the absent
marker (JavaScript `undefined`), not the empty mapping the claim
promises. -/
theorem claim_C8_counterexample :
    processNameValueFields none = none ∧
    processNameValueFields none ≠ some [] :=
  ⟨rfl, by simp [processNameValueFields]⟩

/-- C8 (amended): the encoder reduces the entries into a mapping where the
last entry wins for duplicate field names and absent names are absent from
the mapping; an empty fields list gives the empty mapping, while an absent
specification or an absent fields list gives `undefined`, not the empty
mapping. -/
theorem claim_C8 :
    processNameValueFields (some (some [])) = some [] ∧
    processNameValueFields none = none ∧
    processNameValueFields (some none) = none ∧
    (∀ fields, processNameValueFields (some (some fields)) =
      some (reduceFields fields)) ∧
    (∀ pre r post k, (∀ x ∈ post, x.fieldName ≠ k) → r.fieldName = k →
      lookupStr (reduceFields (pre ++ r :: post)) k = some r.fieldValue) ∧
    (∀ fields k, (∀ x ∈ fields, x.fieldName ≠ k) →
      lookupStr (reduceFields fields) k = none) := by
  refine ⟨rfl, rfl, rfl, fun _ => rfl, lookupStr_reduce_lastWins, ?_⟩
  intro fields k h
  unfold reduceFields
  rw [lookupStr_reduce_noKey fields [] k h]
  rfl

/-- C8 witness: with two entries for the same field name the later value
wins. -/
theorem claim_C8_witness :
    lookupStr (reduceFields [⟨"a", "1"⟩, ⟨"a", "2"⟩]) "a" = some "2" :=
  claim_C8.2.2.2.2.1 [⟨"a", "1"⟩] ⟨"a", "2"⟩ [] "a" (by simp) rfl

/-- C9 counterexample: the filter encoder writes the translated token back
into its input — after the call the entry's operator field holds the
token `=`, no longer the supplied name `equal`. -/
theorem claim_C9_counterexample :
    (processFilters (some [⟨"x", .str "equal", .num 1⟩])).2 =
      some [⟨"x", .str "=", .num 1⟩] ∧
    (translateFilterItem ⟨"x", .str "equal", .num 1⟩).operator = .str "=" ∧
    "=" ≠ "equal" :=
  ⟨rfl, rfl, by decide⟩

/-- C9 (amended): both encoders are deterministic, and the field-update
encoder never touches its input, but the filter encoder overwrites each
entry's operator field with the translated token, leaving only the field
name and the value unchanged. -/
theorem claim_C9 :
    (∀ items, (processFilters (some items)).2 =
      some (items.map translateFilterItem)) ∧
    (∀ item, (translateFilterItem item).fieldName = item.fieldName ∧
      (translateFilterItem item).value = item.value) ∧
    (processFilters none).2 = none := by
  exact ⟨fun _ => rfl, fun item => ⟨rfl, rfl⟩, rfl⟩

/-- C10: the login result is passed through verbatim with no validation
(including a `false` rejection signal), and the login helper raises
exactly when the transport function raises. -/
theorem claim_C10 (t : Transport) (db username password : JValue)
    (rid : Int) :
    (∀ v, odooJSONRPCRequest t (loginBody db username password rid) = .ok v →
      odooGetUserID t db username password rid = .ok v) ∧
    (∀ e, odooJSONRPCRequest t (loginBody db username password rid) =
        .error e →
      odooGetUserID t db username password rid =
        .error (.nodeApiWrap e)) ∧
    (∀ v, odooGetUserID t db username password rid = .ok v →
      odooJSONRPCRequest t (loginBody db username password rid) = .ok v) := by
  refine ⟨?_, ?_, ?_⟩
  · intro v h
    simp [odooGetUserID, h]
  · intro e h
    simp [odooGetUserID, h]
  · intro v h
    unfold odooGetUserID at h
    cases hr : odooJSONRPCRequest t (loginBody db username password rid) with
    | ok w => rw [hr] at h; simp at h; rw [h]
    | error e => rw [hr] at h; simp at h

/-- C10 witness: a remote login answering `false` is returned verbatim
without any error. -/
theorem claim_C10_witness :
    odooGetUserID tFalse .null .null .null 0 = .ok (.bool false) :=
  (claim_C10 tFalse .null .null .null 0).1 (.bool false) rfl

/-- C1 counterexample: a valid itemId does not guarantee a remote call —
update with the valid id `5` but an empty fields map raises the
empty-fields validation error with zero transport invocations. -/
theorem claim_C1_counterexample :
    validItemID "5" = true ∧
    (odooUpdate tNull "db" 1 "pw" "res.partner" .update "5" [] 0).2 = 0 ∧
    (odooUpdate tNull "db" 1 "pw" "res.partner" .update "5" [] 0).1 =
      .error (.nodeApiWrap noFieldsError) :=
  ⟨by decide, rfl, rfl⟩

/-- C1 (amended): an itemId failing the digits-and-nonzero check makes
get, delete, workflow and update raise a validation error with zero
transport invocations; a passing itemId leads to exactly one transport
invocation for get, delete and workflow, and for update exactly when the
fields map is non-empty — update with an empty fields map raises its own
validation error first, still with zero invocations. -/
theorem claim_C1 (t : Transport) (db : String) (uid : Int)
    (pw res cop : String) (op : OdooCRUD) (itemsID : String)
    (ftr : Option (List JValue)) (fields : List (String × JValue))
    (rid : Int) :
    (validItemID itemsID = false →
      (odooGet t db uid pw res op itemsID ftr rid).1 =
        .error (.nodeApiWrap (invalidIDError itemsID)) ∧
      (odooGet t db uid pw res op itemsID ftr rid).2 = 0 ∧
      (odooDelete t db uid pw res op itemsID rid).1 =
        .error (invalidIDError itemsID) ∧
      (odooDelete t db uid pw res op itemsID rid).2 = 0 ∧
      (odooWorkflow t db uid pw res cop itemsID rid).1 =
        .error (.nodeApiWrap (invalidIDError itemsID)) ∧
      (odooWorkflow t db uid pw res cop itemsID rid).2 = 0 ∧
      (odooUpdate t db uid pw res op itemsID fields rid).2 = 0 ∧
      (∃ e, (odooUpdate t db uid pw res op itemsID fields rid).1 =
        .error e)) ∧
    (validItemID itemsID = true →
      (odooGet t db uid pw res op itemsID ftr rid).2 = 1 ∧
      (odooDelete t db uid pw res op itemsID rid).2 = 1 ∧
      (odooWorkflow t db uid pw res cop itemsID rid).2 = 1 ∧
      (fields ≠ [] →
        (odooUpdate t db uid pw res op itemsID fields rid).2 = 1) ∧
      (fields = [] →
        (odooUpdate t db uid pw res op itemsID fields rid).2 = 0 ∧
        (odooUpdate t db uid pw res op itemsID fields rid).1 =
          .error (.nodeApiWrap noFieldsError))) := by
  constructor
  · intro h
    refine ⟨by simp [odooGet, h], by simp [odooGet, h],
      by simp [odooDelete, h], by simp [odooDelete, h],
      by simp [odooWorkflow, h], by simp [odooWorkflow, h], ?_, ?_⟩
    · cases hf : fields.isEmpty with
      | true => simp [odooUpdate, hf]
      | false => simp [odooUpdate, hf, h]
    · cases hf : fields.isEmpty with
      | true =>
        exact ⟨.nodeApiWrap noFieldsError, by simp [odooUpdate, hf]⟩
      | false =>
        exact ⟨.nodeApiWrap (invalidIDError itemsID),
          by simp [odooUpdate, hf, h]⟩
  · intro h
    refine ⟨?_, ?_, ?_, ?_, ?_⟩
    · cases hr : odooJSONRPCRequest t
          (odooGetBody db uid pw res op itemsID ftr rid) with
      | ok v => simp [odooGet, h, hr]
      | error e => simp [odooGet, h, hr]
    · cases hr : odooJSONRPCRequest t
          (odooDeleteBody db uid pw res op itemsID rid) with
      | ok v => simp [odooDelete, h, hr]
      | error e => simp [odooDelete, h, hr]
    · cases hr : odooJSONRPCRequest t
          (odooWorkflowBody db uid pw res cop itemsID rid) with
      | ok v => simp [odooWorkflow, h, hr]
      | error e => simp [odooWorkflow, h, hr]
    · intro hne
      have hf : fields.isEmpty = false := by
        cases fields with
        | nil => exact absurd rfl hne
        | cons a l => rfl
      cases hr : odooJSONRPCRequest t
          (odooUpdateBody db uid pw res op itemsID fields rid) with
      | ok v => simp [odooUpdate, hf, h, hr]
      | error e => simp [odooUpdate, hf, h, hr]
    · intro he
      subst he
      exact ⟨rfl, rfl⟩

/-- C1 witness: the invalid id `0` makes get perform zero transport calls
while the valid id `12` makes it perform exactly one. -/
theorem claim_C1_witness :
    (odooGet tNull "db" 1 "pw" "contact" .get "0" none 0).2 = 0 ∧
    (odooGet tNull "db" 1 "pw" "contact" .get "12" none 0).2 = 1 :=
  ⟨((claim_C1 tNull "db" 1 "pw" "contact" "act" .get "0" none [] 0).1
      (by decide)).2.1,
   ((claim_C1 tNull "db" 1 "pw" "contact" "act" .get "12" none [] 0).2
      (by decide)).1⟩

/-- C7: update with an empty fields map raises the empty-fields validation
error with zero transport invocations whatever the itemId; with a
non-empty map and a valid itemId it performs exactly one remote write and,
when that write succeeds, returns an object carrying the original itemId
string. -/
theorem claim_C7 (t : Transport) (db : String) (uid : Int) (pw res : String)
    (op : OdooCRUD) (itemsID : String) (fields : List (String × JValue))
    (rid : Int) :
    ((odooUpdate t db uid pw res op itemsID [] rid).1 =
        .error (.nodeApiWrap noFieldsError) ∧
      (odooUpdate t db uid pw res op itemsID [] rid).2 = 0) ∧
    (fields ≠ [] → validItemID itemsID = true →
      (odooUpdate t db uid pw res op itemsID fields rid).2 = 1 ∧
      (∀ v, odooJSONRPCRequest t
          (odooUpdateBody db uid pw res op itemsID fields rid) = .ok v →
        (odooUpdate t db uid pw res op itemsID fields rid).1 =
          .ok (.obj [("id", .str itemsID)]))) := by
  refine ⟨⟨rfl, rfl⟩, ?_⟩
  intro hne hid
  have hf : fields.isEmpty = false := by
    cases fields with
    | nil => exact absurd rfl hne
    | cons a l => rfl
  constructor
  · cases hr : odooJSONRPCRequest t
        (odooUpdateBody db uid pw res op itemsID fields rid) with
    | ok v => simp [odooUpdate, hf, hid, hr]
    | error e => simp [odooUpdate, hf, hid, hr]
  · intro v hv
    simp [odooUpdate, hf, hid, hv]

/-- C7 witness: with the valid id `8` and one field the update makes one
call and returns the id object. -/
theorem claim_C7_witness :
    (odooUpdate tNull "db" 1 "pw" "contact" .update "8" [("x", .num 1)] 0).2
      = 1 ∧
    (odooUpdate tNull "db" 1 "pw" "contact" .update "8" [("x", .num 1)] 0).1
      = .ok (.obj [("id", .str "8")]) := by
  have h := (claim_C7 tNull "db" 1 "pw" "contact" .update "8"
    [("x", .num 1)] 0).2 (by simp) (by decide)
  exact ⟨h.1, h.2 .null rfl⟩

/-- C4 counterexample: a probe response that is not a list — an object
with a `length` property of `1` and an element `0` owning `methods` —
makes the probe return `true`, so the claimed equivalence with "a list of
exactly one record with a `methods` property" fails. -/
theorem claim_C4_counterexample :
    odooIsAddonInstalled envWeird 1 2 = true ∧
    specProbeSuccess weirdResult = false :=
  ⟨rfl, rfl⟩

/-- C4 (amended): the probe never raises — any failure in the chain gives
`false`; a successful probe returns the outcome of the source's shape
test, which on list-shaped results coincides exactly with "a list of
exactly one record owning a `methods` property", while certain non-list
objects can also pass it. -/
theorem claim_C4 (env : ProbeEnv) (rid1 rid2 : Int) :
    (∀ e, addonProbeTry env rid1 rid2 = .error e →
      odooIsAddonInstalled env rid1 rid2 = false) ∧
    (∀ r, addonProbeTry env rid1 rid2 = .ok r →
      odooIsAddonInstalled env rid1 rid2 = probeOutcome r) ∧
    (∀ elems : List JValue,
      probeOutcome (.arr elems) = specProbeSuccess (.arr elems)) := by
  refine ⟨?_, ?_, ?_⟩
  · intro e h
    simp [odooIsAddonInstalled, h]
  · intro r h
    simp [odooIsAddonInstalled, h]
  · intro elems
    cases elems with
    | nil => rfl
    | cons x tail =>
      cases tail with
      | nil => cases x <;> rfl
      | cons y rest =>
        have hlen :
            jsStrictEqOne (jsLengthMaybe (.arr (x :: y :: rest))) = false := by
          simp only [jsLengthMaybe, jsStrictEqOne, List.length_cons]
          rw [beq_eq_false_iff_ne]
          intro hc
          omega
        simp [probeOutcome, addonProbeCheck, hlen, specProbeSuccess]

/-- C4 witness: a transport that accepts the login and answers the probe
with one `methods`-owning record makes the probe return `true`. -/
theorem claim_C4_witness :
    odooIsAddonInstalled envOK 1 2 = true :=
  (claim_C4 envOK 1 2).2.1 probeResultOK rfl
